import Mathlib

/-!
Verification of the quilt ES indexer lambda (`src/lambdas/es/indexer/index.py`).

We shallowly embed the lambda's record-processing pipeline: the per-record
normalization and dispatch in `handler`, the tenacity retry wrappers around
S3 `head_object`/`get_object` (`retry_s3`, `should_retry_exception`), the
manifest-pointer detection (`index_if_manifest`, `select_manifest_meta`),
content extraction (`maybe_get_contents`, `get_plain_text`,
`get_notebook_cells`), and the batch loop with its deferred
content-exception re-raise.

External collaborators (boto3/botocore, nbformat, the shared preview
library, and the JSON stdlib) are modelled at their interface boundary as
oracle fields of a `World` structure: each network or library call is a
total function of its arguments (and, for retried calls, the attempt
number) returning `Except PyExn`-style results, exactly as the Python code
observes them.
-/

namespace QuiltIndexer

/-- Model of a Python exception as observed by `index.py`.
`clientError` models `botocore.exceptions.ClientError`: it is the only
exception carrying a `response` attribute, with
`response.get('Error', {}).get('Code')` modelled as an `Option String`
(`none` when the Error/Code keys are absent, in which case
`should_retry_exception`'s `.get('Code', 218)` default applies).
`unicodeError` models `UnicodeDecodeError`, `jsonError` models
`json.JSONDecodeError` / `nbformat.reader.NotJSONError`, and `generic`
models any other exception (connection timeouts, parse errors, ...),
none of which have a `response` attribute. -/
inductive PyExn where
  | clientError (code : Option String) (msg : String)
  | unicodeError (msg : String)
  | jsonError (msg : String)
  | generic (msg : String)
deriving DecidableEq, Repr

/-- `isinstance(e, botocore.exceptions.ClientError)`; equivalently
`hasattr(e, 'response')` in this model. -/
def PyExn.isClientError : PyExn → Bool
  | .clientError _ _ => true
  | _ => false

/-- `e.response.get('Error', {}).get('Code')` (no default): `none` for
exceptions without a response or without a code. -/
def PyExn.code : PyExn → Option String
  | .clientError c _ => c
  | _ => none

/-- Is this exception caught by `except (json.JSONDecodeError, ...)`. -/
def PyExn.isJsonError : PyExn → Bool
  | .jsonError _ => true
  | _ => false

/-- Is this exception caught by `except UnicodeDecodeError`. -/
def PyExn.isUnicodeError : PyExn → Bool
  | .unicodeError _ => true
  | _ => false

/-- `should_retry_exception` (index.py lines 99-104): don't retry certain
40X errors.  If the exception has a `response` attribute, the error code
defaults to the integer `218` when missing (which is not equal to any of
the strings `"402"/"403"/"404"`, hence retryable); exceptions without a
`response` attribute are never retried. -/
def should_retry_exception (e : PyExn) : Bool :=
  match e with
  | .clientError code _ =>
    match code with
    | some c => !(decide (c = "402" ∨ c = "403" ∨ c = "404"))
    | none => true
  | _ => false

/-! ### Models of Python string/path primitives used by index.py -/

/-- Kernel-reducible `String.startsWith` (list-of-characters based, used
so concrete instances evaluate by `decide`). -/
def strStarts (s pre : String) : Bool := pre.data.isPrefixOf s.data

/-- Kernel-reducible `String.endsWith`. -/
def strEnds (s post : String) : Bool := post.data.reverse.isPrefixOf s.data.reverse

/-- Kernel-reducible model of Python `str.strip()` (ASCII whitespace). -/
def pyStrip (s : String) : String :=
  String.mk (((s.data.dropWhile Char.isWhitespace).reverse.dropWhile Char.isWhitespace).reverse)

/-- Kernel-reducible `String.toLower` (ASCII case folding, as in the
ASCII extensions the lambda handles). -/
def strLower (s : String) : String := String.mk (s.data.map Char.toLower)

/-- Drop the last `n` characters (kernel-reducible `String.dropRight`). -/
def strDropRight (s : String) (n : Nat) : String :=
  String.mk (s.data.take (s.data.length - n))

/-- Drop the first `n` characters (kernel-reducible `String.drop`). -/
def strDrop (s : String) (n : Nat) : String := String.mk (s.data.drop n)

/-- Split at a separator character, like `String.splitOn` with a
one-character separator: `"a//b"` gives `["a", "", "b"]`. -/
def splitOnCharAux (sep : Char) : List Char → List Char → List (List Char)
  | [], acc => [acc.reverse]
  | c :: cs, acc =>
    if c = sep then acc.reverse :: splitOnCharAux sep cs []
    else splitOnCharAux sep cs (c :: acc)

/-- Is `c` an ASCII hexadecimal digit. -/
def isHexChar (c : Char) : Bool :=
  c.isDigit || (decide ('a' ≤ c) && decide (c ≤ 'f')) || (decide ('A' ≤ c) && decide (c ≤ 'F'))

/-- Value of a hexadecimal digit character. -/
def hexVal (c : Char) : Nat :=
  if c.isDigit then c.toNat - 48
  else if 'a' ≤ c ∧ c ≤ 'f' then c.toNat - 87
  else c.toNat - 55

/-- Percent-decoding on character lists: model of `urllib.parse.unquote`
restricted to single-byte escapes (multi-byte UTF-8 escape sequences decode
to the corresponding sequence of code points below 256 here; no claim
depends on non-ASCII escapes).  Invalid escapes are kept verbatim, as in
Python. -/
def pyUnquoteList : List Char → List Char
  | [] => []
  | '%' :: a :: b :: rest =>
    if isHexChar a ∧ isHexChar b then
      Char.ofNat (16 * hexVal a + hexVal b) :: pyUnquoteList rest
    else
      '%' :: pyUnquoteList (a :: b :: rest)
  | c :: rest => c :: pyUnquoteList rest

/-- `urllib.parse.unquote` (interface model, see `pyUnquoteList`). -/
def pyUnquote (s : String) : String :=
  String.mk (pyUnquoteList s.data)

/-- `urllib.parse.unquote_plus`: replace `+` by space, then unquote. -/
def pyUnquotePlus (s : String) : String :=
  String.mk (pyUnquoteList (s.data.map (fun c => if c = '+' then ' ' else c)))

/-- `pathlib.PurePosixPath(p).name`: the final path component, with empty
and `.` components dropped by path normalization. -/
def posixPathName (p : String) : String :=
  match ((splitOnCharAux '/' p.data []).filter (fun s => s ≠ [] ∧ s ≠ ['.'])).getLast? with
  | some s => String.mk s
  | none => ""

/-- `PurePosixPath` `.suffix` on a file name: `i = name.rfind('.')`;
if `0 < i < len(name) - 1` return `name[i:]` else `''`. -/
def pySuffix (name : String) : String :=
  let cs := name.data
  let afterRev := cs.reverse.takeWhile (fun c => c ≠ '.')
  if afterRev.length = cs.length then ""
  else
    let i := cs.length - afterRev.length - 1
    if 0 < i ∧ 0 < afterRev.length then String.mk (cs.drop i) else ""

/-- Name of `path.with_suffix('')`: the file name with `pySuffix` removed.
(Python raises on an empty name; the lambda only reaches this with
non-empty S3 keys.) -/
def pyStemName (name : String) : String :=
  String.mk (name.data.take (name.data.length - (pySuffix name).data.length))

/-- The two-level extension computed in `handler` (index.py lines 426-429):
`ext1 = path.suffix`, `ext2 = path.with_suffix('').suffix`,
`ext = (ext2 + ext1).lower()`. -/
def handlerExt (key : String) : String :=
  let name := posixPathName key
  strLower ((pySuffix (pyStemName name)) ++ (pySuffix name))

/-- `os.path.split`: split at the last `/`; the head has trailing slashes
stripped unless it consists only of slashes. -/
def ospath_split (p : String) : String × String :=
  let cs := p.data
  let tailRev := cs.reverse.takeWhile (fun c => c ≠ '/')
  if tailRev.length = cs.length then ("", p)
  else
    let head := cs.take (cs.length - tailRev.length)
    let head' := if head.all (fun c => c = '/') then head
                 else (head.reverse.dropWhile (fun c => c = '/')).reverse
    (String.mk head', String.mk tailRev.reverse)

/-- Digits-with-underscores tail of `int()` parsing: after an initial
digit, each subsequent group is a digit optionally preceded by a single
underscore; a trailing or doubled underscore fails. -/
def pyDigitsGo (acc : Nat) : List Char → Option Nat
  | [] => some acc
  | '_' :: c :: cs =>
    if c.isDigit then pyDigitsGo (acc * 10 + (c.toNat - 48)) cs else none
  | c :: cs =>
    if c.isDigit then pyDigitsGo (acc * 10 + (c.toNat - 48)) cs else none

/-- Digit sequence that must start with a digit. -/
def pyDigitsStart : List Char → Option Nat
  | c :: cs => if c.isDigit then pyDigitsGo (c.toNat - 48) cs else none
  | [] => none

/-- Model of Python `int(str)`: strip surrounding whitespace, optional
sign, ASCII decimal digits with single underscores between digits.
(Python also accepts non-ASCII decimal digits; no S3 pointer key uses
them.) -/
def pyIntParse (s : String) : Option Int :=
  match (pyStrip s).data with
  | '+' :: rest => (pyDigitsStart rest).map Int.ofNat
  | '-' :: rest => (pyDigitsStart rest).map (fun n => -(Int.ofNat n))
  | t => (pyDigitsStart t).map Int.ofNat

/-- Python truthiness of an optional string (`None` and `""` are falsy). -/
def truthyOpt : Option String → Bool
  | some s => !(decide (s = ""))
  | none => false

/-! ### infer_extensions (index.py lines 107-118) -/

/-- `re.fullmatch(r".c\d{3,5}", ext)`: one arbitrary non-newline
character, then `c`, then 3-5 ASCII digits (`\d` modelled as ASCII). -/
def fullmatch_dot_c (s : String) : Bool :=
  match s.data with
  | a :: 'c' :: rest =>
    (a != '\n') && decide (3 ≤ rest.length) && decide (rest.length ≤ 5)
      && rest.all Char.isDigit
  | _ => false

/-- `re.fullmatch(r".*-c\d{3,5}$", key)`: the key ends in `-c` followed by
3-5 digits (the digits must reach the end of the string, so they are the
whole maximal trailing digit run), and the prefix contains no newline
(`.` does not match `\n`). -/
def fullmatch_dash_c (key : String) : Bool :=
  let rcs := key.data.reverse
  let run := rcs.takeWhile Char.isDigit
  let rest := rcs.drop run.length
  decide (3 ≤ run.length) && decide (run.length ≤ 5) &&
  (match rest with
   | 'c' :: '-' :: pre => pre.all (fun c => (c != '\n'))
   | _ => false)

/-- `infer_extensions` (index.py lines 107-118): guess extensions for
hive-partition naming patterns. -/
def infer_extensions (key ext : String) : String :=
  if fullmatch_dot_c ext || fullmatch_dash_c key
      || strEnds key "_0" || ext = ".pq" then
    ".parquet"
  else ext

/-! ### Constants

Constants imported by index.py from `document_queue` and
`t4_lambda_shared`, modules of this repository that are not under `src/`;
their values are modelled from the spec. -/

/-- Modelled from the spec: `EVENT_PREFIX["Created"]` from the missing
`document_queue` module — the prefix of storage "created" event names
("Process all Create:* and Remove:* events"). -/
def EVENT_PREFIX_Created : String := "ObjectCreated:"

/-- Modelled from the spec: `EVENT_PREFIX["Removed"]` from the missing
`document_queue` module — the prefix of delete-class event names. -/
def EVENT_PREFIX_Removed : String := "ObjectRemoved:"

/-- Modelled from the spec: `POINTER_PREFIX_V1` from the missing
`t4_lambda_shared.utils` module — the package pointer namespace under
which pointer objects live. -/
def POINTER_PREFIX_V1 : String := ".quilt/named_packages/"

/-- Modelled from the spec: `MANIFEST_PREFIX_V1` from the missing
`t4_lambda_shared.utils` module — the namespace of manifest objects,
keyed by package hash. -/
def MANIFEST_PREFIX_V1 : String := ".quilt/packages/"

/-- Modelled from the spec: the byte ceiling on extracted text
(`ELASTIC_LIMIT_BYTES` from the missing shared preview library; the exact
value is external configuration and no claim depends on it). -/
def ELASTIC_LIMIT_BYTES : Nat := 100000

/-- Modelled from the spec: the maximum preview line count
(`ELASTIC_LIMIT_LINES` from the missing shared preview library). -/
def ELASTIC_LIMIT_LINES : Nat := 100000

/-- Modelled from the spec: the extensions eligible for deep content
indexing (`CONTENT_INDEX_EXTS` from the missing `document_queue` module);
per the spec it contains at least the notebook, columnar and plain-text
formats dispatched on in `maybe_get_contents`. -/
def CONTENT_INDEX_EXTS : List String :=
  [".csv", ".html", ".ipynb", ".json", ".md", ".parquet", ".rmd", ".tsv", ".txt"]

/-! ### Datetimes, S3 requests and the external-call oracle -/

/-- Model of a Python `datetime`: an instant plus whether it carries the
UTC timezone. -/
structure PyDatetime where
  epoch : Int
  tzUtc : Bool
deriving DecidableEq, Repr

/-- `now_like_boto3` (index.py lines 91-96): the current wall-clock time
with timezone UTC for consistency with boto3. -/
def now_like_boto3 (now : Int) : PyDatetime := ⟨now, true⟩

/-- The operation argument of `retry_s3`. -/
inductive S3Op where
  | head
  | get
deriving DecidableEq, Repr

/-- The keyword arguments assembled by `retry_s3` (index.py lines
554-565): `range = some n` models `Range: bytes=0-n`. -/
structure S3Args where
  bucket : String
  key : String
  range : Option Nat := none
  versionId : Option String := none
  ifMatch : Option String := none
deriving DecidableEq, Repr

/-- The S3 response fields index.py reads: `ContentLength`,
`LastModified` (from `head_object`) and `Body` (from `get_object`,
as raw bytes). -/
structure S3Obj where
  contentLength : Nat
  lastModified : PyDatetime
  body : List Nat
deriving DecidableEq, Repr

/-- The two projections of the JSON-decoded first manifest record that
index.py uses: `str(d.get("message", ""))` and
`json.dumps(d.get("user_meta", {}))`. -/
structure FirstDict where
  message : String
  userMeta : String
deriving DecidableEq, Repr

/-- Oracle for every external call index.py makes, at the interface
boundary of the respective collaborator.  Calls wrapped in a tenacity
retry additionally take the attempt number.
* `s3` — `s3_client.head_object` / `s3_client.get_object`;
* `queryManifest` — `query_manifest_content(s3_client, bucket, key, sql).read()`;
* `jsonFirst` — `json.loads` of the first manifest record, projected to
  the two fields used;
* `getBytes` — `t4_lambda_shared.preview.get_bytes(body, compression)`;
* `decodeUtf8` — `bytes.decode("utf-8")`;
* `extractText` — `extract_text` via `nbformat.reads` (any exception it
  throws is modelled as an error result);
* `extractParquet` — `extract_parquet(data, as_html=False, skip_rows)`,
  returning the body preview and the schema column names;
* `previewLines` — `get_preview_lines(body, compression, max_lines, max_bytes)`;
* `availableMemory` — `get_available_memory()`;
* `skipRowsExts` — the `SKIP_ROWS_EXTS` environment configuration;
* `now` — the wall clock read by `now_like_boto3`. -/
structure World where
  s3 : S3Op → S3Args → Nat → Except PyExn S3Obj
  queryManifest : String → String → Nat → Except PyExn String
  jsonFirst : String → Except PyExn FirstDict
  getBytes : List Nat → Option String → Except PyExn (List Nat)
  decodeUtf8 : List Nat → Except PyExn String
  extractText : String → Except PyExn String
  extractParquet : List Nat → Bool → Except PyExn (String × List String)
  previewLines : List Nat → Option String → Nat → Nat → Except PyExn (List String)
  availableMemory : Nat
  skipRowsExts : List String
  now : Int

/-! ### The tenacity retry combinator -/

/-- `tenacity.wait_exponential(multiplier, min, max)`: the wait after the
given (1-based) attempt is `multiplier * 2 ^ attempt` clamped to
`[minW, maxW]`. -/
def waitExp (multiplier minW maxW attempt : Nat) : Nat :=
  max minW (min (multiplier * 2 ^ attempt) maxW)

/-- The `tenacity.retry` loop with `stop=stop_after_attempt`:
run `f` at increasing attempt numbers while the result is an exception
the predicate retries, with `fuel` attempts remaining; returns the final
result, the list of waits slept between attempts, and the number of
attempts made.  On stop with `reraise` the last exception is re-raised,
otherwise a `RetryError` is raised; a non-retryable exception is
re-raised immediately. -/
def tenacityRun {a : Type} (shouldRetry : PyExn → Bool) (wait : Nat → Nat)
    (reraise : Bool) (f : Nat → Except PyExn a) :
    Nat → Nat → Except PyExn a × List Nat × Nat
  | _, 0 => (.error (.generic "tenacity.RetryError"), [], 0)
  | attempt, fuel + 1 =>
    match f attempt with
    | .ok v => (.ok v, [], 1)
    | .error e =>
      if shouldRetry e then
        if fuel = 0 then
          (.error (if reraise then e else .generic "tenacity.RetryError"), [], 1)
        else
          let r := tenacityRun shouldRetry wait reraise f (attempt + 1) fuel
          (r.1, wait attempt :: r.2.1, r.2.2 + 1)
      else (.error e, [], 1)

/-! ### retry_s3 and the metadata-resolution step -/

/-- `retry_s3` (index.py lines 533-579): assemble the request arguments —
`Range` only for a `get` with truthy `size` and `limit`, pin to
`VersionId` when the version id is truthy and to `IfMatch: etag`
otherwise — then call S3 under
`retry(reraise=True, stop=stop_after_attempt(cap),
wait=wait_exponential(multiplier=2, min=4, max=30),
retry=retry_if_exception(should_retry_exception))`.
Returns the result, the argument list of the calls made (one entry per
attempt) and the waits slept. -/
def retry_s3_args (operation : S3Op) (bucket key : String)
    (size limit : Option Nat) (etag : String) (version_id : Option String) :
    S3Args :=
  { bucket := bucket
    key := key
    range :=
      match operation, size, limit with
      | .get, some sz, some lm =>
        if sz ≠ 0 ∧ lm ≠ 0 then some (Nat.min sz lm) else none
      | _, _, _ => none
    versionId := if truthyOpt version_id then version_id else none
    ifMatch := if truthyOpt version_id then none else some etag }

/-- See `retry_s3_args` for the request assembly (index.py lines 554-565). -/
def retry_s3 (w : World) (cap : Nat) (operation : S3Op) (bucket key : String)
    (size limit : Option Nat) (etag : String) (version_id : Option String) :
    Except PyExn S3Obj × List S3Args × List Nat :=
  let args := retry_s3_args operation bucket key size limit etag version_id
  let r := tenacityRun should_retry_exception (waitExp 2 4 30) true
    (w.s3 operation args) 1 cap
  (r.1, List.replicate r.2.2 args, r.2.1)

/-- The metadata-resolution step of `handler` (index.py lines 447-470):
HEAD the object; if that raises a `ClientError` whose code is `"403"`
while the version id is literally `"null"`, retry the HEAD once without
the version qualifier; any other error is re-raised.  Returns the result
and the argument list of all S3 calls made. -/
def resolveHead (w : World) (cap : Nat) (bucket key etag : String)
    (version_id : Option String) : Except PyExn S3Obj × List S3Args :=
  match retry_s3 w cap .head bucket key none none etag version_id with
  | (.ok h, t, _) => (.ok h, t)
  | (.error e, t, _) =>
    if e.isClientError then
      if e.code = some "403" ∧ version_id = some "null" then
        match retry_s3 w cap .head bucket key none none etag none with
        | (r2, t2, _) => (r2, t ++ t2)
      else (.error e, t)
    else (.error e, t)

/-! ### Content extraction -/

/-- Take a prefix of the characters fitting a UTF-8 byte budget. -/
def takeBytes : List Char → Nat → List Char
  | [], _ => []
  | c :: cs, budget =>
    if c.utf8Size ≤ budget then c :: takeBytes cs (budget - c.utf8Size) else []

/-- Modelled from the spec: `trim_to_bytes` from the missing shared
preview library — truncate a string to the byte ceiling. -/
def trim_to_bytes (s : String) (limit : Nat) : String :=
  if s.utf8ByteSize ≤ limit then s else String.mk (takeBytes s.data limit)

/-- `get_plain_text` (index.py lines 343-376): ranged GET
(`limit=ELASTIC_LIMIT_BYTES`), then `get_preview_lines` joined with
newlines; a `UnicodeDecodeError` anywhere in the try block yields `""`.
Returns the result and the S3 calls made. -/
def get_plain_text (w : World) (cap : Nat) (bucket key : String) (size : Nat)
    (compression : Option String) (etag : String) (version_id : Option String) :
    Except PyExn String × List S3Args :=
  let r := retry_s3 w cap .get bucket key (some size) (some ELASTIC_LIMIT_BYTES)
    etag version_id
  let res : Except PyExn String :=
    match r.1 with
    | .error e => .error e
    | .ok obj =>
      match w.previewLines obj.body compression ELASTIC_LIMIT_LINES ELASTIC_LIMIT_BYTES with
      | .error e => .error e
      | .ok lines => .ok (String.intercalate "\n" lines)
  match res with
  | .error (.unicodeError _) => (.ok "", r.2.1)
  | other => (other, r.2.1)

/-- `select_manifest_meta` (index.py lines 121-141): under the same
tenacity policy as `retry_s3` but without `reraise`, query the first
manifest record; a `ClientError` from the query is caught inside the
attempt and returns `None` (so tenacity sees success and does not
retry). -/
def select_manifest_meta (w : World) (cap : Nat) (bucket key : String) :
    Except PyExn (Option String) :=
  (tenacityRun should_retry_exception (waitExp 2 4 30) false
    (fun n =>
      match w.queryManifest bucket key n with
      | .ok raw => .ok (some raw)
      | .error e => if e.isClientError then .ok none else .error e)
    1 cap).1

/-- `get_notebook_cells` (index.py lines 312-340): GET the full body,
decompress, decode UTF-8, then extract the notebook text; any exception
from the extraction itself is caught and yields `""`, and a
`UnicodeDecodeError` anywhere in the outer try also yields `""`; other
errors (e.g. `ClientError` from the GET) propagate. -/
def get_notebook_cells (w : World) (cap : Nat) (bucket key : String)
    (size : Nat) (compression : Option String) (etag : String)
    (version_id : Option String) : Except PyExn String × List S3Args :=
  let inner : Except PyExn String × List S3Args :=
    match retry_s3 w cap .get bucket key (some size) none etag version_id with
    | (.error e, t, _) => (.error e, t)
    | (.ok obj, t, _) =>
      match w.getBytes obj.body compression with
      | .error e => (.error e, t)
      | .ok bytes =>
        match w.decodeUtf8 bytes with
        | .error e => (.error e, t)
        | .ok nb =>
          match w.extractText nb with
          | .ok txt => (.ok txt, t)
          | .error _ => (.ok "", t)
  match inner with
  | (.error (.unicodeError _), t) => (.ok "", t)
  | other => other

/-- `maybe_get_contents` (index.py lines 216-278): strip a `.gz` suffix
into a compression marker, infer the extension, and dispatch:
notebooks are fully fetched and parsed; parquet is skipped entirely when
the size reaches the available memory, otherwise fetched and column
names plus body preview are emitted; other supported extensions get a
plain-text preview; unsupported extensions yield `""`.
Returns the result and the S3 calls made. -/
def maybe_get_contents (w : World) (cap : Nat) (bucket key ext : String)
    (etag : String) (version_id : Option String) (size : Nat) :
    Except PyExn String × List S3Args :=
  let comp : Option String × String :=
    if strEnds ext ".gz" then (some "gz", strDropRight ext 3) else (none, ext)
  let compression := comp.1
  let ext1 := comp.2
  let inferred_ext := infer_extensions key ext1
  if CONTENT_INDEX_EXTS.contains inferred_ext then
    if inferred_ext = ".ipynb" then
      match get_notebook_cells w cap bucket key size compression etag version_id with
      | (.ok s, t) => (.ok (trim_to_bytes s ELASTIC_LIMIT_BYTES), t)
      | (.error e, t) => (.error e, t)
    else if inferred_ext = ".parquet" then
      if w.availableMemory ≤ size then (.ok "", [])
      else
        match retry_s3 w cap .get bucket key (some size) none etag version_id with
        | (.error e, t, _) => (.error e, t)
        | (.ok obj, t, _) =>
          match w.getBytes obj.body compression with
          | .error e => (.error e, t)
          | .ok bytes =>
            match w.extractParquet bytes (w.skipRowsExts.contains inferred_ext) with
            | .error e => (.error e, t)
            | .ok (body, names) =>
              (.ok (trim_to_bytes (String.intercalate "," names ++ "\n" ++ body)
                ELASTIC_LIMIT_BYTES), t)
    else
      get_plain_text w cap bucket key size compression etag version_id
  else (.ok "", [])

/-! ### Documents and the queue (modelled from the spec) -/

/-- Modelled from the spec: `DocTypes` from the missing `document_queue`
module — the document type tag, `OBJECT` or `PACKAGE`. -/
inductive DocTypes where
  | OBJECT
  | PACKAGE
deriving DecidableEq, Repr

/-- Modelled from the spec: the Document appended to the `DocumentQueue`
(missing `document_queue` module).  Fields are `Option`-valued exactly
when the corresponding keyword argument is omitted at some `append` call
site in index.py. -/
structure Document where
  event_type : String
  doc_type : DocTypes
  bucket : String
  key : String
  ext : String
  etag : String
  version_id : Option String := none
  last_modified : Option PyDatetime := none
  size : Option Nat := none
  text : Option String := none
  handle : Option String := none
  package_hash : Option String := none
  comment : Option String := none
  metadata : Option String := none
deriving DecidableEq, Repr

/-! ### Manifest detection -/

/-- `index_if_manifest` (index.py lines 144-213): if the key's directory
lies under the pointer namespace and its file name parses as an integer
within `[1451631600, 1767250800]`, fetch the pointer body (the package
hash), query the first record of the manifest it names, and on success
append a `PACKAGE` document; every recognized failure returns `false`
("not a manifest") without raising.  Takes and returns the queue
contents; also returns the S3 calls made. -/
def index_if_manifest (w : World) (cap : Nat) (docs : List Document)
    (event_type : String) (bucket etag ext key : String)
    (last_modified : PyDatetime) (version_id : Option String) (size : Nat) :
    Except PyExn (Bool × List Document) × List S3Args :=
  let sp := ospath_split key
  let pointerDir := sp.1
  let pointerFile := sp.2
  if ¬ strStarts pointerDir POINTER_PREFIX_V1 then (.ok (false, docs), [])
  else
    match pyIntParse pointerFile with
    | none => (.ok (false, docs), [])
    | some ts =>
      if ¬ (1451631600 ≤ ts ∧ ts ≤ 1767250800) then (.ok (false, docs), [])
      else
        match get_plain_text w cap bucket key size none etag version_id with
        | (.error e, t) => (.error e, t)
        | (.ok raw, t) =>
          let package_hash := pyStrip raw
          let manifest_key := MANIFEST_PREFIX_V1 ++ package_hash
          match select_manifest_meta w cap bucket manifest_key with
          | .error e => (.error e, t)
          | .ok first =>
            if first = none ∨ first = some "" then (.ok (false, docs), t)
            else
              match w.jsonFirst (first.getD "") with
              | .ok fd =>
                (.ok (true, docs ++ [{
                  event_type := event_type
                  doc_type := .PACKAGE
                  bucket := bucket
                  etag := etag
                  ext := ext
                  handle := some (strDrop pointerDir POINTER_PREFIX_V1.length)
                  key := manifest_key
                  last_modified := some last_modified
                  package_hash := some package_hash
                  comment := some fd.message
                  metadata := some fd.userMeta }]), t)
              | .error e =>
                if e.isJsonError || e.isClientError then (.ok (false, docs), t)
                else (.error e, t)

/-! ### The handler loop -/

/-- One raw S3 event record as read by `handler`: the fields of
`event_["eventName"]` and `event_["s3"]`; `versionId` and `eTag` model
`.get(...)` of possibly-absent keys. -/
structure EventRecord where
  eventName : String
  bucketName : String
  objectKey : String
  versionId : Option String := none
  eTag : Option String := none
deriving DecidableEq, Repr

/-- `version_id = unquote(version_id) if version_id else None`
(index.py lines 418-419). -/
def normVersionId : Option String → Option String
  | some s => if s = "" then none else some (pyUnquote s)
  | none => none

/-- The mutable state of one batch: the queue contents and the
remembered content-extraction exception (`content_exception`). -/
structure RecState where
  docs : List Document
  contentExn : Option PyExn
deriving Repr

/-- The record-level `except botocore.exceptions.ClientError` clause of
`handler` (index.py lines 518-523): a non-retryable `ClientError` skips
the record (`continue`); anything else propagates and aborts the
batch. -/
def recordCatch (st : RecState) (t : List S3Args) (e : PyExn) :
    RecState × List S3Args × Option PyExn :=
  if e.isClientError ∧ ¬ should_retry_exception e then (st, t, none)
  else (st, t, some e)

/-- One iteration of the per-record loop of `handler`
(index.py lines 409-523).  Returns the updated batch state, the S3
HEAD/GET calls made, and `some e` when the record aborts the batch by
raising `e`. -/
def processRecord (w : World) (cap : Nat) (st : RecState) (rec : EventRecord) :
    RecState × List S3Args × Option PyExn :=
  let event_name := rec.eventName
  if ¬ (strStarts event_name EVENT_PREFIX_Created
        ∨ strStarts event_name EVENT_PREFIX_Removed) then
    (st, [], none)
  else
    let bucket := pyUnquote rec.bucketName
    let key := pyUnquotePlus rec.objectKey
    let version_id := normVersionId rec.versionId
    if truthyOpt version_id ∧ event_name = "ObjectRemoved:DeleteMarkerCreated" then
      (st, [], none)
    else
      let etag := pyUnquote (rec.eTag.getD "")
      let ext := handlerExt key
      if strStarts event_name EVENT_PREFIX_Removed then
        ({ st with docs := st.docs ++ [{
            event_type := event_name
            doc_type := .OBJECT
            bucket := bucket
            ext := ext
            etag := etag
            key := key
            last_modified := some (now_like_boto3 w.now)
            text := some ""
            version_id := version_id }] }, [], none)
      else
        match resolveHead w cap bucket key etag version_id with
        | (.error e, t) => recordCatch st t e
        | (.ok head, t1) =>
          let size := head.contentLength
          let last_modified := head.lastModified
          match index_if_manifest w cap st.docs event_name bucket etag ext key
              last_modified version_id size with
          | (.error e, t2) => recordCatch st (t1 ++ t2) e
          | (.ok (_, docs1), t2) =>
            let c := maybe_get_contents w cap bucket key ext etag version_id size
            let tc : String × Option PyExn :=
              match c.1 with
              | .ok s => (s, st.contentExn)
              | .error e => ("", some e)
            ({ docs := docs1 ++ [{
                 event_type := event_name
                 doc_type := .OBJECT
                 bucket := bucket
                 key := key
                 ext := ext
                 etag := etag
                 version_id := version_id
                 last_modified := some last_modified
                 size := some size
                 text := some tc.1 }]
               contentExn := tc.2 }, t1 ++ t2 ++ c.2, none)

/-- The per-record loop over a batch: fold `processRecord`, stopping at
the first record that raises. -/
def processEvents (w : World) (cap : Nat) :
    RecState → List EventRecord → RecState × Option PyExn
  | st, [] => (st, none)
  | st, rec :: rest =>
    let r := processRecord w cap st rec
    match r.2.2 with
    | some e => (r.1, some e)
    | none => processEvents w cap r.1 rest

/-- One batch of `handler` (index.py lines 405-530): a fresh
`DocumentQueue`, the per-record loop, then `send_all()` (the flush),
then re-raise of the remembered content exception if any.  Returns the
outcome, the queue contents produced (they are flushed, never rolled
back), and the number of flushes performed.  (In the source
`content_exception` is initialized once before the outer message loop;
this models the processing of one message's batch, starting from the
initial `None`.) -/
def processBatch (w : World) (cap : Nat) (events : List EventRecord) :
    Except PyExn Unit × List Document × Nat :=
  let r := processEvents w cap ⟨[], none⟩ events
  match r.2 with
  | some e => (.error e, r.1.docs, 0)
  | none =>
    match r.1.contentExn with
    | some e => (.error e, r.1.docs, 1)
    | none => (.ok (), r.1.docs, 1)

/-! ### Concrete worlds (used by witnesses and concrete theorems) -/

/-- A head/get response used by the concrete worlds. -/
def obj0 : S3Obj := ⟨5, ⟨1000, true⟩, [1, 2, 3]⟩

/-- A world where every external call succeeds; `previewLines` echoes the
compression marker it was handed, so the dispatch of
`maybe_get_contents` is observable in the produced text. -/
def wOK : World where
  s3 := fun _ _ _ => .ok obj0
  queryManifest := fun _ _ _ => .ok "{}"
  jsonFirst := fun _ => .ok ⟨"hi", "{}"⟩
  getBytes := fun b _ => .ok b
  decodeUtf8 := fun _ => .ok "nb"
  extractText := fun s => .ok s
  extractParquet := fun _ _ => .ok ("PQBODY", ["colA", "colB"])
  previewLines := fun _ c _ _ => .ok [c.getD "plain"]
  availableMemory := 1000000
  skipRowsExts := []
  now := 42

/-- `wOK` with content extraction (the preview call) failing. -/
def wContentFail : World :=
  { wOK with previewLines := fun _ _ _ _ => .error (.generic "boom") }

/-- `wOK` with plain-text extraction failing with one error and parquet
extraction failing with a second, distinct error. -/
def wTwoErr : World :=
  { wOK with previewLines := fun _ _ _ _ => .error (.generic "boom")
             extractParquet := fun _ _ => .error (.generic "boom2") }

/-- `wOK` with every S3 call failing with the given client error code. -/
def wCode (c : String) : World :=
  { wOK with s3 := fun _ _ _ => .error (.clientError (some c) "denied") }

/-- `wOK` with every S3 call failing with an exception that has no
`response` attribute (e.g. a connection timeout). -/
def wGenericS3 : World :=
  { wOK with s3 := fun _ _ _ => .error (.generic "timeout") }

/-- `wOK` whose S3 returns 403 exactly for version-qualified requests. -/
def w403null : World :=
  { wOK with s3 := fun _ args _ =>
      if args.versionId = some "null" then
        .error (.clientError (some "403") "forbidden")
      else .ok obj0 }

/-- `wOK` with the manifest select query failing with a client error. -/
def wQueryFail : World :=
  { wOK with queryManifest := fun _ _ _ => .error (.clientError (some "400") "select failed") }

/-- `wOK` with the first manifest record failing to parse as JSON. -/
def wJsonFail : World :=
  { wOK with jsonFirst := fun _ => .error (.jsonError "bad json") }

/-! ### Helper lemmas -/

/-- Percent-decoding a non-empty character list is non-empty. -/
lemma pyUnquoteList_ne_nil (c : Char) (cs : List Char) : pyUnquoteList (c :: cs) ≠ [] := by
  rcases cs with _ | ⟨a, _ | ⟨b, rest⟩⟩
  · by_cases hc : c = '%' <;> simp [pyUnquoteList, hc]
  · by_cases hc : c = '%' <;> simp [pyUnquoteList, hc]
  · by_cases hc : c = '%'
    · subst hc
      rw [pyUnquoteList]
      split <;> simp
    · simp [pyUnquoteList, hc]

/-- Percent-decoding a non-empty string is non-empty. -/
lemma pyUnquote_ne_empty (v : String) (hv : v ≠ "") : pyUnquote v ≠ "" := by
  have hd : v.data ≠ [] := by
    intro h
    apply hv
    cases v
    simp_all
  rcases hvd : v.data with _ | ⟨c, cs⟩
  · exact absurd hvd hd
  · intro h
    apply pyUnquoteList_ne_nil c cs
    have hdata : (pyUnquote v).data = [] := by rw [h]
    rw [pyUnquote] at hdata
    simpa [hvd] using hdata

/-- A present, non-empty raw version id normalizes to a truthy one. -/
lemma truthy_normVersionId (v : String) (hv : v ≠ "") :
    truthyOpt (normVersionId (some v)) = true := by
  simp [normVersionId, hv, truthyOpt]
  exact pyUnquote_ne_empty v hv

/-- A tenacity-wrapped call that succeeds makes exactly one attempt. -/
lemma tenacityRun_ok {a : Type} {sr : PyExn → Bool} {wait : Nat → Nat} {rr : Bool}
    {f : Nat → Except PyExn a} {attempt fuel : Nat} {v : a} (hf : f attempt = .ok v) :
    tenacityRun sr wait rr f attempt (fuel + 1) = (.ok v, [], 1) := by
  simp [tenacityRun, hf]

/-- A tenacity-wrapped call whose exception the predicate refuses to
retry makes exactly one attempt and re-raises it. -/
lemma tenacityRun_noretry {a : Type} {sr : PyExn → Bool} {wait : Nat → Nat} {rr : Bool}
    {f : Nat → Except PyExn a} {attempt fuel : Nat} {e : PyExn}
    (hf : f attempt = .error e) (hr : sr e = false) :
    tenacityRun sr wait rr f attempt (fuel + 1) = (.error e, [], 1) := by
  simp [tenacityRun, hf, hr]

/-- A tenacity-wrapped call that keeps failing retryably exhausts the
attempt cap, sleeping the prescribed wait between attempts, and (with
`reraise`) re-raises the exception. -/
lemma tenacityRun_const_error {a : Type} {sr : PyExn → Bool} {wait : Nat → Nat}
    {f : Nat → Except PyExn a} {e : PyExn} (hr : sr e = true)
    (hf : ∀ n, f n = .error e) :
    ∀ fuel, 1 ≤ fuel → ∀ attempt,
      tenacityRun sr wait true f attempt fuel =
        (.error e, (List.range (fuel - 1)).map (fun i => wait (attempt + i)), fuel) := by
  intro fuel
  induction fuel with
  | zero => intro h; exact absurd h (by omega)
  | succ n ih =>
    intro _ attempt
    cases n with
    | zero => simp [tenacityRun, hf attempt, hr]
    | succ m =>
      have ihm := ih (by omega) (attempt + 1)
      rw [tenacityRun, hf attempt]
      simp only [hr, if_true, Nat.succ_ne_zero, if_false, ihm]
      simp [List.range_succ_eq_map, List.map_map, Function.comp]
      intro i _
      congr 1
      omega

/-- `retry_s3` when the first attempt succeeds: one call, no waits. -/
lemma retry_s3_first_ok {w : World} {cap : Nat} {op : S3Op} {b k : String}
    {sz lm : Option Nat} {etag : String} {vid : Option String} {obj : S3Obj}
    (hcap : 1 ≤ cap)
    (h : w.s3 op (retry_s3_args op b k sz lm etag vid) 1 = .ok obj) :
    retry_s3 w cap op b k sz lm etag vid =
      (.ok obj, [retry_s3_args op b k sz lm etag vid], []) := by
  obtain ⟨n, rfl⟩ : ∃ n, cap = n + 1 := ⟨cap - 1, by omega⟩
  simp only [retry_s3]
  rw [tenacityRun_ok h]
  rfl

/-- `retry_s3` on a non-retryable error: one call, immediate propagation. -/
lemma retry_s3_nonretryable {w : World} {cap : Nat} {op : S3Op} {b k : String}
    {sz lm : Option Nat} {etag : String} {vid : Option String} {e : PyExn}
    (hcap : 1 ≤ cap)
    (h : w.s3 op (retry_s3_args op b k sz lm etag vid) 1 = .error e)
    (hr : should_retry_exception e = false) :
    retry_s3 w cap op b k sz lm etag vid =
      (.error e, [retry_s3_args op b k sz lm etag vid], []) := by
  obtain ⟨n, rfl⟩ : ∃ n, cap = n + 1 := ⟨cap - 1, by omega⟩
  simp only [retry_s3]
  rw [tenacityRun_noretry h hr]
  rfl

/-- `retry_s3` on a persistent retryable error: exactly `cap` calls with
the clamped exponential waits between them, then re-raise. -/
lemma retry_s3_persistent {w : World} {cap : Nat} {op : S3Op} {b k : String}
    {sz lm : Option Nat} {etag : String} {vid : Option String} {e : PyExn}
    (hcap : 1 ≤ cap)
    (h : ∀ n, w.s3 op (retry_s3_args op b k sz lm etag vid) n = .error e)
    (hr : should_retry_exception e = true) :
    retry_s3 w cap op b k sz lm etag vid =
      (.error e,
       List.replicate cap (retry_s3_args op b k sz lm etag vid),
       (List.range (cap - 1)).map (fun i => waitExp 2 4 30 (1 + i))) := by
  simp only [retry_s3]
  rw [tenacityRun_const_error hr h cap hcap 1]



/-- The created-object path of one `handler` record when metadata
resolution, manifest detection and content extraction all return:
the OBJECT document is appended after whatever the manifest step
queued. -/
lemma processRecord_created_ok {w : World} {cap : Nat} {st : RecState} {rec : EventRecord}
    {head : S3Obj} {t1 : List S3Args} {fl : Bool} {docs1 : List Document}
    {t2 : List S3Args} {s : String} {t3 : List S3Args}
    (hC : strStarts rec.eventName EVENT_PREFIX_Created = true)
    (hR : strStarts rec.eventName EVENT_PREFIX_Removed = false)
    (hhead : resolveHead w cap (pyUnquote rec.bucketName) (pyUnquotePlus rec.objectKey)
      (pyUnquote (rec.eTag.getD "")) (normVersionId rec.versionId) = (.ok head, t1))
    (hman : index_if_manifest w cap st.docs rec.eventName (pyUnquote rec.bucketName)
      (pyUnquote (rec.eTag.getD "")) (handlerExt (pyUnquotePlus rec.objectKey))
      (pyUnquotePlus rec.objectKey) head.lastModified (normVersionId rec.versionId)
      head.contentLength = (.ok (fl, docs1), t2))
    (hc : maybe_get_contents w cap (pyUnquote rec.bucketName) (pyUnquotePlus rec.objectKey)
      (handlerExt (pyUnquotePlus rec.objectKey)) (pyUnquote (rec.eTag.getD ""))
      (normVersionId rec.versionId) head.contentLength = (.ok s, t3)) :
    processRecord w cap st rec =
      ({ docs := docs1 ++ [{
           event_type := rec.eventName
           doc_type := .OBJECT
           bucket := pyUnquote rec.bucketName
           key := pyUnquotePlus rec.objectKey
           ext := handlerExt (pyUnquotePlus rec.objectKey)
           etag := pyUnquote (rec.eTag.getD "")
           version_id := normVersionId rec.versionId
           last_modified := some head.lastModified
           size := some head.contentLength
           text := some s }]
         contentExn := st.contentExn }, t1 ++ t2 ++ t3, none) := by
  have hneq : rec.eventName ≠ "ObjectRemoved:DeleteMarkerCreated" := by
    intro h
    rw [h] at hR
    exact absurd hR (by decide)
  simp [processRecord, hC, hR, hneq, hhead, hman, hc]

/-- The created-object path when content extraction raises: empty text
is substituted, the error is remembered, and the OBJECT document is
still appended. -/
lemma processRecord_created_contentFail {w : World} {cap : Nat} {st : RecState}
    {rec : EventRecord} {head : S3Obj} {t1 : List S3Args} {fl : Bool}
    {docs1 : List Document} {t2 : List S3Args} {e : PyExn} {t3 : List S3Args}
    (hC : strStarts rec.eventName EVENT_PREFIX_Created = true)
    (hR : strStarts rec.eventName EVENT_PREFIX_Removed = false)
    (hhead : resolveHead w cap (pyUnquote rec.bucketName) (pyUnquotePlus rec.objectKey)
      (pyUnquote (rec.eTag.getD "")) (normVersionId rec.versionId) = (.ok head, t1))
    (hman : index_if_manifest w cap st.docs rec.eventName (pyUnquote rec.bucketName)
      (pyUnquote (rec.eTag.getD "")) (handlerExt (pyUnquotePlus rec.objectKey))
      (pyUnquotePlus rec.objectKey) head.lastModified (normVersionId rec.versionId)
      head.contentLength = (.ok (fl, docs1), t2))
    (hc : maybe_get_contents w cap (pyUnquote rec.bucketName) (pyUnquotePlus rec.objectKey)
      (handlerExt (pyUnquotePlus rec.objectKey)) (pyUnquote (rec.eTag.getD ""))
      (normVersionId rec.versionId) head.contentLength = (.error e, t3)) :
    processRecord w cap st rec =
      ({ docs := docs1 ++ [{
           event_type := rec.eventName
           doc_type := .OBJECT
           bucket := pyUnquote rec.bucketName
           key := pyUnquotePlus rec.objectKey
           ext := handlerExt (pyUnquotePlus rec.objectKey)
           etag := pyUnquote (rec.eTag.getD "")
           version_id := normVersionId rec.versionId
           last_modified := some head.lastModified
           size := some head.contentLength
           text := some "" }]
         contentExn := some e }, t1 ++ t2 ++ t3, none) := by
  have hneq : rec.eventName ≠ "ObjectRemoved:DeleteMarkerCreated" := by
    intro h
    rw [h] at hR
    exact absurd hR (by decide)
  simp [processRecord, hC, hR, hneq, hhead, hman, hc]



/-! ### Claim theorems -/

/-- C10: the retry predicate returns `false` for any exception without a
`response` attribute (connection timeouts, decode errors, ...), so only
client errors whose status code lies outside {402, 403, 404} are ever
retried by the backoff wrapper: a generic error propagates from
`retry_s3` after a single attempt. -/
theorem C10_nonresponse_never_retried :
    (∀ m, should_retry_exception (PyExn.generic m) = false
        ∧ should_retry_exception (PyExn.unicodeError m) = false
        ∧ should_retry_exception (PyExn.jsonError m) = false)
  ∧ (∀ e, should_retry_exception e = true →
        e.isClientError = true
        ∧ e.code ≠ some "402" ∧ e.code ≠ some "403" ∧ e.code ≠ some "404")
  ∧ (∀ w cap op b k sz lm etag vid m, 1 ≤ cap →
        (∀ n, w.s3 op (retry_s3_args op b k sz lm etag vid) n = .error (.generic m)) →
        retry_s3 w cap op b k sz lm etag vid =
          (.error (.generic m), [retry_s3_args op b k sz lm etag vid], [])) := by
  refine ⟨fun m => ⟨rfl, rfl, rfl⟩, ?_, ?_⟩
  · intro e he
    cases e with
    | clientError code msg =>
      cases code with
      | none => exact ⟨rfl, by simp [PyExn.code], by simp [PyExn.code], by simp [PyExn.code]⟩
      | some c =>
        simp only [should_retry_exception, Bool.not_eq_true', decide_eq_false_iff_not] at he
        push_neg at he
        exact ⟨rfl, by simp [PyExn.code, he.1], by simp [PyExn.code, he.2.1],
          by simp [PyExn.code, he.2.2]⟩
    | unicodeError m => simp [should_retry_exception] at he
    | jsonError m => simp [should_retry_exception] at he
    | generic m => simp [should_retry_exception] at he
  · intro w cap op b k sz lm etag vid m hcap h
    exact retry_s3_nonretryable hcap (h 1) rfl

/-- C10 witness: a connection-style error with no response is classified
non-retryable and `retry_s3` makes exactly one call before propagating. -/
theorem C10_witness :
    should_retry_exception (PyExn.generic "timeout") = false
  ∧ retry_s3 wGenericS3 3 .head "b" "k" none none "E" none =
      (.error (.generic "timeout"), [retry_s3_args .head "b" "k" none none "E" none], []) :=
  ⟨(C10_nonresponse_never_retried.1 "timeout").1,
   C10_nonresponse_never_retried.2.2 wGenericS3 3 .head "b" "k" none none "E" none "timeout"
     (by omega) (fun _ => rfl)⟩

/-- C4: storage calls propagate 402/403/404 errors immediately after a
single attempt, while any other persistent error is retried with the
clamped exponential backoff (multiplier 2, minimum 4, maximum 30) up to
the attempt cap, after which it is re-raised. -/
theorem C4_retry_policy :
    (∀ w cap op b k sz lm etag vid c m, 1 ≤ cap →
        (c = "402" ∨ c = "403" ∨ c = "404") →
        (∀ n, w.s3 op (retry_s3_args op b k sz lm etag vid) n
            = .error (.clientError (some c) m)) →
        retry_s3 w cap op b k sz lm etag vid =
          (.error (.clientError (some c) m),
           [retry_s3_args op b k sz lm etag vid], []))
  ∧ (∀ w cap op b k sz lm etag vid e, 1 ≤ cap →
        should_retry_exception e = true →
        (∀ n, w.s3 op (retry_s3_args op b k sz lm etag vid) n = .error e) →
        retry_s3 w cap op b k sz lm etag vid =
          (.error e,
           List.replicate cap (retry_s3_args op b k sz lm etag vid),
           (List.range (cap - 1)).map (fun i => waitExp 2 4 30 (1 + i)))) := by
  constructor
  · intro w cap op b k sz lm etag vid c m hcap hc h
    have hr : should_retry_exception (.clientError (some c) m) = false := by
      rcases hc with h1 | h1 | h1 <;> subst h1 <;> rfl
    exact retry_s3_nonretryable hcap (h 1) hr
  · intro w cap op b k sz lm etag vid e hcap hr h
    exact retry_s3_persistent hcap h hr

/-- C4 witness: a 403 propagates after one call with no waits; a 500
under cap 4 makes four calls with waits 4, 8, 16. -/
theorem C4_witness :
    retry_s3 (wCode "403") 1 .head "b" "k" none none "E" none =
      (.error (.clientError (some "403") "denied"),
       [retry_s3_args .head "b" "k" none none "E" none], [])
  ∧ retry_s3 (wCode "500") 4 .head "b" "k" none none "E" none =
      (.error (.clientError (some "500") "denied"),
       List.replicate 4 (retry_s3_args .head "b" "k" none none "E" none),
       [4, 8, 16]) := by
  constructor
  · exact C4_retry_policy.1 (wCode "403") 1 .head "b" "k" none none "E" none "403" "denied"
      (by omega) (Or.inr (Or.inl rfl)) (fun _ => rfl)
  · have h := C4_retry_policy.2 (wCode "500") 4 .head "b" "k" none none "E" none
      (.clientError (some "500") "denied") (by omega) (by decide) (fun _ => rfl)
    rw [h]
    rfl

/-- C5: a 403 on the version-qualified HEAD with version id literally
`"null"` triggers exactly one retry without the version qualifier (the
fallback request carries `IfMatch` instead of `VersionId`); any other
402/403/404 propagates after the single qualified HEAD. -/
theorem C5_null_version_403_fallback :
    (∀ w cap b k etag m obj, 1 ≤ cap →
        (∀ n, w.s3 .head (retry_s3_args .head b k none none etag (some "null")) n
            = .error (.clientError (some "403") m)) →
        (∀ n, w.s3 .head (retry_s3_args .head b k none none etag none) n = .ok obj) →
        resolveHead w cap b k etag (some "null") =
          (.ok obj, [retry_s3_args .head b k none none etag (some "null"),
                     retry_s3_args .head b k none none etag none])
        ∧ (retry_s3_args .head b k none none etag none).versionId = none
        ∧ (retry_s3_args .head b k none none etag none).ifMatch = some etag)
  ∧ (∀ w cap b k etag vid c m, 1 ≤ cap →
        (c = "402" ∨ c = "404" ∨ (c = "403" ∧ vid ≠ some "null")) →
        (∀ n, w.s3 .head (retry_s3_args .head b k none none etag vid) n
            = .error (.clientError (some c) m)) →
        resolveHead w cap b k etag vid =
          (.error (.clientError (some c) m),
           [retry_s3_args .head b k none none etag vid])) := by
  constructor
  · intro w cap b k etag m obj hcap h1 h2
    refine ⟨?_, rfl, rfl⟩
    have r1 := retry_s3_nonretryable hcap (h1 1) rfl
    have r2 := retry_s3_first_ok hcap (h2 1)
    simp [resolveHead, r1, r2, PyExn.isClientError, PyExn.code]
  · intro w cap b k etag vid c m hcap hc h
    have hr : should_retry_exception (.clientError (some c) m) = false := by
      rcases hc with h1 | h1 | ⟨h1, _⟩ <;> subst h1 <;> rfl
    have r1 := retry_s3_nonretryable hcap (h 1) hr
    have hneg : ¬((PyExn.clientError (some c) m).code = some "403" ∧ vid = some "null") := by
      rcases hc with h1 | h1 | ⟨h1, h2⟩
      · subst h1; simp [PyExn.code]
      · subst h1; simp [PyExn.code]
      · subst h1; simp [PyExn.code]; exact h2
    simp [resolveHead, r1, PyExn.isClientError, hneg]

/-- C5 witness: with S3 replying 403 only to version-qualified requests,
the `"null"`-versioned HEAD falls back to one unqualified HEAD that
succeeds; a 404 with no version id propagates after one call. -/
theorem C5_witness :
    resolveHead w403null 1 "b" "k" "E" (some "null") =
      (.ok obj0, [retry_s3_args .head "b" "k" none none "E" (some "null"),
                  retry_s3_args .head "b" "k" none none "E" none])
  ∧ resolveHead (wCode "404") 1 "b" "k" "E" none =
      (.error (.clientError (some "404") "denied"),
       [retry_s3_args .head "b" "k" none none "E" none]) :=
  ⟨(C5_null_version_403_fallback.1 w403null 1 "b" "k" "E" "forbidden" obj0
      (by omega) (fun _ => rfl) (fun _ => rfl)).1,
   C5_null_version_403_fallback.2 (wCode "404") 1 "b" "k" "E" none "404" "denied"
      (by omega) (Or.inr (Or.inl rfl)) (fun _ => rfl)⟩


/-- C2: the versioning truth table — a record with a (truthy) version id
and event `ObjectRemoved:DeleteMarkerCreated` is skipped with no
document; a qualified versioned delete (`ObjectRemoved:Delete` with a
version id) and a delete on a never-versioned bucket
(`ObjectRemoved:Delete` without a version id) each produce exactly one
delete document. -/
theorem C2_versioning_truth_table :
    (∀ w cap st b k v e0, v ≠ "" →
        processRecord w cap st ⟨"ObjectRemoved:DeleteMarkerCreated", b, k, some v, e0⟩
          = (st, [], none))
  ∧ (∀ w cap st b k v e0, v ≠ "" →
        processRecord w cap st ⟨"ObjectRemoved:Delete", b, k, some v, e0⟩
          = ({ st with docs := st.docs ++
               [{ event_type := "ObjectRemoved:Delete"
                  doc_type := .OBJECT
                  bucket := pyUnquote b
                  key := pyUnquotePlus k
                  ext := handlerExt (pyUnquotePlus k)
                  etag := pyUnquote (e0.getD "")
                  version_id := some (pyUnquote v)
                  last_modified := some (now_like_boto3 w.now)
                  text := some "" }] }, [], none))
  ∧ (∀ w cap st b k e0,
        processRecord w cap st ⟨"ObjectRemoved:Delete", b, k, none, e0⟩
          = ({ st with docs := st.docs ++
               [{ event_type := "ObjectRemoved:Delete"
                  doc_type := .OBJECT
                  bucket := pyUnquote b
                  key := pyUnquotePlus k
                  ext := handlerExt (pyUnquotePlus k)
                  etag := pyUnquote (e0.getD "")
                  version_id := none
                  last_modified := some (now_like_boto3 w.now)
                  text := some "" }] }, [], none)) := by
  refine ⟨?_, ?_, ?_⟩
  · intro w cap st b k v e0 hv
    have h1 := truthy_normVersionId v hv
    have hA : strStarts "ObjectRemoved:DeleteMarkerCreated" EVENT_PREFIX_Created = false := by
      decide
    have hB : strStarts "ObjectRemoved:DeleteMarkerCreated" EVENT_PREFIX_Removed = true := by
      decide
    simp [processRecord, h1, hA, hB]
  · intro w cap st b k v e0 hv
    have hA : strStarts "ObjectRemoved:Delete" EVENT_PREFIX_Created = false := by decide
    have hB : strStarts "ObjectRemoved:Delete" EVENT_PREFIX_Removed = true := by decide
    have hNe : ¬("ObjectRemoved:Delete" = "ObjectRemoved:DeleteMarkerCreated") := by decide
    simp [processRecord, hA, hB, hNe, normVersionId, hv]
  · intro w cap st b k e0
    have hA : strStarts "ObjectRemoved:Delete" EVENT_PREFIX_Created = false := by decide
    have hB : strStarts "ObjectRemoved:Delete" EVENT_PREFIX_Removed = true := by decide
    have hNe : ¬("ObjectRemoved:Delete" = "ObjectRemoved:DeleteMarkerCreated") := by decide
    simp [processRecord, hA, hB, hNe, normVersionId, truthyOpt]

/-- C2 witness: concrete instances of all-skip and one-document rows of
the truth table. -/
theorem C2_witness :
    processRecord wOK 3 ⟨[], none⟩
        ⟨"ObjectRemoved:DeleteMarkerCreated", "b", "k.txt", some "V1", none⟩
      = (⟨[], none⟩, [], none)
  ∧ processRecord wOK 3 ⟨[], none⟩ ⟨"ObjectRemoved:Delete", "b", "k.txt", some "V1", none⟩
      = ({ docs := [{ event_type := "ObjectRemoved:Delete"
                      doc_type := .OBJECT
                      bucket := pyUnquote "b"
                      key := pyUnquotePlus "k.txt"
                      ext := handlerExt (pyUnquotePlus "k.txt")
                      etag := pyUnquote ((none : Option String).getD "")
                      version_id := some (pyUnquote "V1")
                      last_modified := some (now_like_boto3 wOK.now)
                      text := some "" }]
           contentExn := none }, [], none) := by
  constructor
  · exact C2_versioning_truth_table.1 wOK 3 ⟨[], none⟩ "b" "k.txt" "V1" none (by decide)
  · have h := C2_versioning_truth_table.2.1 wOK 3 ⟨[], none⟩ "b" "k.txt" "V1" none (by decide)
    simpa using h

/-- C3: every non-skipped delete-class record takes the fast path — no
HEAD/GET call is made, the document has empty text, its size is absent
and its last-modified is the wall clock (UTC) rather than any object
metadata, and processing moves directly to the queue. -/
theorem C3_delete_fast_path :
    ∀ w cap st rec, strStarts rec.eventName EVENT_PREFIX_Removed = true →
      ¬(truthyOpt (normVersionId rec.versionId) = true
         ∧ rec.eventName = "ObjectRemoved:DeleteMarkerCreated") →
      processRecord w cap st rec =
        ({ st with docs := st.docs ++
           [{ event_type := rec.eventName
              doc_type := .OBJECT
              bucket := pyUnquote rec.bucketName
              key := pyUnquotePlus rec.objectKey
              ext := handlerExt (pyUnquotePlus rec.objectKey)
              etag := pyUnquote (rec.eTag.getD "")
              version_id := normVersionId rec.versionId
              last_modified := some (now_like_boto3 w.now)
              size := none
              text := some "" }] }, [], none) := by
  intro w cap st rec hstart hskip
  simp [processRecord, hstart, hskip]

/-- C3 witness: a concrete delete record produces the metadata-only
document with an empty S3 call trace. -/
theorem C3_witness :
    processRecord wOK 3 ⟨[], none⟩ ⟨"ObjectRemoved:Delete", "b", "k space.txt", some "V1", none⟩
      = ({ docs := [{ event_type := "ObjectRemoved:Delete"
                      doc_type := .OBJECT
                      bucket := pyUnquote "b"
                      key := pyUnquotePlus "k space.txt"
                      ext := handlerExt (pyUnquotePlus "k space.txt")
                      etag := pyUnquote ((none : Option String).getD "")
                      version_id := normVersionId (some "V1")
                      last_modified := some (now_like_boto3 wOK.now)
                      size := none
                      text := some "" }]
           contentExn := none }, [], none) := by
  have h := C3_delete_fast_path wOK 3 ⟨[], none⟩
    ⟨"ObjectRemoved:Delete", "b", "k space.txt", some "V1", none⟩ (by decide) (by decide)
  simpa using h


/-- C8: extension inference — key `part-00000_0` (no dot suffix) infers
`.parquet`, `data.c00042` infers `.parquet`, and `report.csv.gz` keeps
the two-level extension `.csv.gz` whose `.gz` is stripped into a
compression marker before dispatch (the preview oracle observes
compression `"gz"`); the extension is at most two trailing dot-suffixes,
lower-cased. -/
theorem C8_extension_inference :
    handlerExt "part-00000_0" = ""
  ∧ infer_extensions "part-00000_0" (handlerExt "part-00000_0") = ".parquet"
  ∧ handlerExt "data.c00042" = ".c00042"
  ∧ infer_extensions "data.c00042" (handlerExt "data.c00042") = ".parquet"
  ∧ handlerExt "report.csv.gz" = ".csv.gz"
  ∧ handlerExt "dir/Report.CSV.Gz" = ".csv.gz"
  ∧ handlerExt "a/data.tar.bz2.csv" = ".bz2.csv"
  ∧ maybe_get_contents wOK 3 "b" "part-00000_0" (handlerExt "part-00000_0") "E" none 5
      = (.ok "colA,colB\nPQBODY", [retry_s3_args .get "b" "part-00000_0" (some 5) none "E" none])
  ∧ maybe_get_contents wOK 3 "b" "data.c00042" (handlerExt "data.c00042") "E" none 5
      = (.ok "colA,colB\nPQBODY", [retry_s3_args .get "b" "data.c00042" (some 5) none "E" none])
  ∧ maybe_get_contents wOK 3 "b" "report.csv.gz" (handlerExt "report.csv.gz") "E" none 5
      = (.ok "gz",
         [retry_s3_args .get "b" "report.csv.gz" (some 5) (some ELASTIC_LIMIT_BYTES) "E" none]) :=
  ⟨rfl, rfl, rfl, rfl, rfl, rfl, rfl, rfl, rfl, rfl⟩

/-- C7: a key under the pointer namespace is a manifest candidate only
if its file name parses as an integer within
`[1451631600, 1767250800]`; a non-parsing or out-of-range pointer makes
`index_if_manifest` return `false` with no S3 call and no error, and the
object is still indexed as a plain OBJECT document. -/
theorem C7_pointer_timestamp_gate :
    (∀ w cap docs et bucket etag ext key lm vid size,
        strStarts (ospath_split key).1 POINTER_PREFIX_V1 = true →
        (pyIntParse (ospath_split key).2 = none
          ∨ ∃ ts, pyIntParse (ospath_split key).2 = some ts
              ∧ ¬(1451631600 ≤ ts ∧ ts ≤ 1767250800)) →
        index_if_manifest w cap docs et bucket etag ext key lm vid size
          = (.ok (false, docs), []))
  ∧ pyIntParse "99" = some 99
  ∧ ¬((1451631600 : Int) ≤ 99 ∧ (99 : Int) ≤ 1767250800)
  ∧ pyIntParse "1700000000" = some 1700000000
  ∧ ((1451631600 : Int) ≤ 1700000000 ∧ (1700000000 : Int) ≤ 1767250800)
  ∧ pyIntParse "not-a-number" = none
  ∧ (∀ w cap st rec head t1 fl docs1 t2 s t3,
        strStarts rec.eventName EVENT_PREFIX_Created = true →
        strStarts rec.eventName EVENT_PREFIX_Removed = false →
        resolveHead w cap (pyUnquote rec.bucketName) (pyUnquotePlus rec.objectKey)
          (pyUnquote (rec.eTag.getD "")) (normVersionId rec.versionId) = (.ok head, t1) →
        index_if_manifest w cap st.docs rec.eventName (pyUnquote rec.bucketName)
          (pyUnquote (rec.eTag.getD "")) (handlerExt (pyUnquotePlus rec.objectKey))
          (pyUnquotePlus rec.objectKey) head.lastModified (normVersionId rec.versionId)
          head.contentLength = (.ok (fl, docs1), t2) →
        maybe_get_contents w cap (pyUnquote rec.bucketName) (pyUnquotePlus rec.objectKey)
          (handlerExt (pyUnquotePlus rec.objectKey)) (pyUnquote (rec.eTag.getD ""))
          (normVersionId rec.versionId) head.contentLength = (.ok s, t3) →
        processRecord w cap st rec =
          ({ docs := docs1 ++
             [{ event_type := rec.eventName
                doc_type := .OBJECT
                bucket := pyUnquote rec.bucketName
                key := pyUnquotePlus rec.objectKey
                ext := handlerExt (pyUnquotePlus rec.objectKey)
                etag := pyUnquote (rec.eTag.getD "")
                version_id := normVersionId rec.versionId
                last_modified := some head.lastModified
                size := some head.contentLength
                text := some s }]
             contentExn := st.contentExn }, t1 ++ t2 ++ t3, none)) := by
  refine ⟨?_, rfl, by decide, rfl, by decide, rfl, ?_⟩
  · intro w cap docs et bucket etag ext key lm vid size hp hbad
    rcases hbad with hb | ⟨ts, hts, hrange⟩
    · simp [index_if_manifest, hp, hb]
    · simp [index_if_manifest, hp, hts, hrange]
  · intro w cap st rec head t1 fl docs1 t2 s t3 hC hR hhead hman hc
    exact processRecord_created_ok hC hR hhead hman hc

/-- C7 witness: pointer file `99` is rejected by the gate and the object
is still indexed as OBJECT. -/
theorem C7_witness :
    index_if_manifest wOK 3 [] "ObjectCreated:Put" "b" "E" ""
        ".quilt/named_packages/usr/pkg/99" ⟨1000, true⟩ none 5
      = (.ok (false, []), [])
  ∧ processRecord wOK 3 ⟨[], none⟩
        ⟨"ObjectCreated:Put", "b", ".quilt/named_packages/usr/pkg/99", none, some "E"⟩
      = ({ docs := [{ event_type := "ObjectCreated:Put"
                      doc_type := .OBJECT
                      bucket := "b"
                      key := ".quilt/named_packages/usr/pkg/99"
                      ext := ""
                      etag := "E"
                      version_id := none
                      last_modified := some ⟨1000, true⟩
                      size := some 5
                      text := some "" }]
           contentExn := none },
         [retry_s3_args .head "b" ".quilt/named_packages/usr/pkg/99" none none "E" none],
         none) := by
  constructor
  · exact C7_pointer_timestamp_gate.1 wOK 3 [] "ObjectCreated:Put" "b" "E" ""
      ".quilt/named_packages/usr/pkg/99" ⟨1000, true⟩ none 5 (by decide)
      (Or.inr ⟨99, by decide, by decide⟩)
  · have h := C7_pointer_timestamp_gate.2.2.2.2.2.2 wOK 3 ⟨[], none⟩
      ⟨"ObjectCreated:Put", "b", ".quilt/named_packages/usr/pkg/99", none, some "E"⟩
      obj0 [retry_s3_args .head "b" ".quilt/named_packages/usr/pkg/99" none none "E" none]
      false [] [] "" [] (by decide) (by decide) (by rfl) (by rfl) (by rfl)
    simpa using h

/-- C6: manifest resolution is best-effort — a `ClientError` from the
first-record manifest query is swallowed into a `None` result, a falsy
or unparseable first record makes `index_if_manifest` return `false`
("not a manifest") rather than raise, and the object's own OBJECT
document is still appended by the handler. -/
theorem C6_manifest_best_effort :
    (∀ w cap bucket key c m, 1 ≤ cap →
        w.queryManifest bucket key 1 = .error (.clientError c m) →
        select_manifest_meta w cap bucket key = .ok none)
  ∧ (∀ w cap docs et bucket etag ext key lm vid size ts raw t,
        strStarts (ospath_split key).1 POINTER_PREFIX_V1 = true →
        pyIntParse (ospath_split key).2 = some ts →
        1451631600 ≤ ts → ts ≤ 1767250800 →
        get_plain_text w cap bucket key size none etag vid = (.ok raw, t) →
        select_manifest_meta w cap bucket (MANIFEST_PREFIX_V1 ++ pyStrip raw) = .ok none →
        index_if_manifest w cap docs et bucket etag ext key lm vid size
          = (.ok (false, docs), t))
  ∧ (∀ w cap docs et bucket etag ext key lm vid size ts raw t s m,
        strStarts (ospath_split key).1 POINTER_PREFIX_V1 = true →
        pyIntParse (ospath_split key).2 = some ts →
        1451631600 ≤ ts → ts ≤ 1767250800 →
        get_plain_text w cap bucket key size none etag vid = (.ok raw, t) →
        select_manifest_meta w cap bucket (MANIFEST_PREFIX_V1 ++ pyStrip raw)
          = .ok (some s) →
        s ≠ "" →
        w.jsonFirst s = .error (.jsonError m) →
        index_if_manifest w cap docs et bucket etag ext key lm vid size
          = (.ok (false, docs), t))
  ∧ (∀ w cap st rec head t1 fl docs1 t2 s t3,
        strStarts rec.eventName EVENT_PREFIX_Created = true →
        strStarts rec.eventName EVENT_PREFIX_Removed = false →
        resolveHead w cap (pyUnquote rec.bucketName) (pyUnquotePlus rec.objectKey)
          (pyUnquote (rec.eTag.getD "")) (normVersionId rec.versionId) = (.ok head, t1) →
        index_if_manifest w cap st.docs rec.eventName (pyUnquote rec.bucketName)
          (pyUnquote (rec.eTag.getD "")) (handlerExt (pyUnquotePlus rec.objectKey))
          (pyUnquotePlus rec.objectKey) head.lastModified (normVersionId rec.versionId)
          head.contentLength = (.ok (fl, docs1), t2) →
        maybe_get_contents w cap (pyUnquote rec.bucketName) (pyUnquotePlus rec.objectKey)
          (handlerExt (pyUnquotePlus rec.objectKey)) (pyUnquote (rec.eTag.getD ""))
          (normVersionId rec.versionId) head.contentLength = (.ok s, t3) →
        (processRecord w cap st rec).1.docs = docs1 ++
          [{ event_type := rec.eventName
             doc_type := .OBJECT
             bucket := pyUnquote rec.bucketName
             key := pyUnquotePlus rec.objectKey
             ext := handlerExt (pyUnquotePlus rec.objectKey)
             etag := pyUnquote (rec.eTag.getD "")
             version_id := normVersionId rec.versionId
             last_modified := some head.lastModified
             size := some head.contentLength
             text := some s }]) := by
  refine ⟨?_, ?_, ?_, ?_⟩
  · intro w cap bucket key c m hcap hq
    obtain ⟨n, rfl⟩ : ∃ n, cap = n + 1 := ⟨cap - 1, by omega⟩
    simp [select_manifest_meta, tenacityRun, hq, PyExn.isClientError]
  · intro w cap docs et bucket etag ext key lm vid size ts raw t hp hts hlo hhi hget hsel
    simp [index_if_manifest, hp, hts, hlo, hhi, hget, hsel]
  · intro w cap docs et bucket etag ext key lm vid size ts raw t s m hp hts hlo hhi hget hsel
      hs hjson
    simp [index_if_manifest, hp, hts, hlo, hhi, hget, hsel, hs, hjson, PyExn.isJsonError]
  · intro w cap st rec head t1 fl docs1 t2 s t3 hC hR hhead hman hc
    rw [processRecord_created_ok hC hR hhead hman hc]

/-- C6 witness: concrete query-failure and JSON-failure worlds yield
`false` from manifest resolution while the OBJECT document is still
queued. -/
theorem C6_witness :
    select_manifest_meta wQueryFail 1 "b" ".quilt/packages/plain" = .ok none
  ∧ index_if_manifest wQueryFail 3 [] "ObjectCreated:Put" "b" "E" ""
      ".quilt/named_packages/usr/pkg/1700000000" ⟨1000, true⟩ none 5
      = (.ok (false, []),
         [retry_s3_args .get "b" ".quilt/named_packages/usr/pkg/1700000000"
           (some 5) (some ELASTIC_LIMIT_BYTES) "E" none])
  ∧ index_if_manifest wJsonFail 3 [] "ObjectCreated:Put" "b" "E" ""
      ".quilt/named_packages/usr/pkg/1700000000" ⟨1000, true⟩ none 5
      = (.ok (false, []),
         [retry_s3_args .get "b" ".quilt/named_packages/usr/pkg/1700000000"
           (some 5) (some ELASTIC_LIMIT_BYTES) "E" none])
  ∧ (processRecord wQueryFail 3 ⟨[], none⟩
      ⟨"ObjectCreated:Put", "b", ".quilt/named_packages/usr/pkg/1700000000", none, some "E"⟩).1.docs
      = [{ event_type := "ObjectCreated:Put"
           doc_type := .OBJECT
           bucket := "b"
           key := ".quilt/named_packages/usr/pkg/1700000000"
           ext := ""
           etag := "E"
           version_id := none
           last_modified := some ⟨1000, true⟩
           size := some 5
           text := some "" }] := by
  refine ⟨?_, ?_, ?_, ?_⟩
  · exact C6_manifest_best_effort.1 wQueryFail 1 "b" ".quilt/packages/plain" "400"
      "select failed" (by omega) rfl
  · exact C6_manifest_best_effort.2.1 wQueryFail 3 [] "ObjectCreated:Put" "b" "E" ""
      ".quilt/named_packages/usr/pkg/1700000000" ⟨1000, true⟩ none 5 1700000000 "plain"
      [retry_s3_args .get "b" ".quilt/named_packages/usr/pkg/1700000000"
        (some 5) (some ELASTIC_LIMIT_BYTES) "E" none]
      (by decide) (by decide) (by decide) (by decide) (by rfl) (by rfl)
  · exact C6_manifest_best_effort.2.2.1 wJsonFail 3 [] "ObjectCreated:Put" "b" "E" ""
      ".quilt/named_packages/usr/pkg/1700000000" ⟨1000, true⟩ none 5 1700000000 "plain"
      [retry_s3_args .get "b" ".quilt/named_packages/usr/pkg/1700000000"
        (some 5) (some ELASTIC_LIMIT_BYTES) "E" none]
      "{}" "bad json"
      (by decide) (by decide) (by decide) (by decide) (by rfl) (by rfl) (by decide) (by rfl)
  · have h := C6_manifest_best_effort.2.2.2 wQueryFail 3 ⟨[], none⟩
      ⟨"ObjectCreated:Put", "b", ".quilt/named_packages/usr/pkg/1700000000", none, some "E"⟩
      obj0
      [retry_s3_args .head "b" ".quilt/named_packages/usr/pkg/1700000000" none none "E" none]
      false []
      [retry_s3_args .get "b" ".quilt/named_packages/usr/pkg/1700000000"
        (some 5) (some ELASTIC_LIMIT_BYTES) "E" none]
      "" []
      (by decide) (by decide) (by rfl) (by rfl) (by rfl)
    simpa using h

/-- C9: a created record whose key is a valid manifest pointer that
resolves successfully appends two documents, in order: a PACKAGE
document keyed by the manifest key derived from the resolved hash, then
the ordinary OBJECT document for the pointer key itself — manifest
detection never suppresses plain-object indexing. -/
theorem C9_package_then_object :
    ∀ w cap st rec head t1 ts raw t2 s fd txt t3,
      strStarts rec.eventName EVENT_PREFIX_Created = true →
      strStarts rec.eventName EVENT_PREFIX_Removed = false →
      resolveHead w cap (pyUnquote rec.bucketName) (pyUnquotePlus rec.objectKey)
        (pyUnquote (rec.eTag.getD "")) (normVersionId rec.versionId) = (.ok head, t1) →
      strStarts (ospath_split (pyUnquotePlus rec.objectKey)).1 POINTER_PREFIX_V1 = true →
      pyIntParse (ospath_split (pyUnquotePlus rec.objectKey)).2 = some ts →
      1451631600 ≤ ts → ts ≤ 1767250800 →
      get_plain_text w cap (pyUnquote rec.bucketName) (pyUnquotePlus rec.objectKey)
        head.contentLength none (pyUnquote (rec.eTag.getD "")) (normVersionId rec.versionId)
        = (.ok raw, t2) →
      select_manifest_meta w cap (pyUnquote rec.bucketName)
        (MANIFEST_PREFIX_V1 ++ pyStrip raw) = .ok (some s) →
      s ≠ "" →
      w.jsonFirst s = .ok fd →
      maybe_get_contents w cap (pyUnquote rec.bucketName) (pyUnquotePlus rec.objectKey)
        (handlerExt (pyUnquotePlus rec.objectKey)) (pyUnquote (rec.eTag.getD ""))
        (normVersionId rec.versionId) head.contentLength = (.ok txt, t3) →
      processRecord w cap st rec =
        ({ docs := st.docs ++
           [{ event_type := rec.eventName
              doc_type := .PACKAGE
              bucket := pyUnquote rec.bucketName
              key := MANIFEST_PREFIX_V1 ++ pyStrip raw
              ext := handlerExt (pyUnquotePlus rec.objectKey)
              etag := pyUnquote (rec.eTag.getD "")
              last_modified := some head.lastModified
              handle := some (strDrop (ospath_split (pyUnquotePlus rec.objectKey)).1
                POINTER_PREFIX_V1.length)
              package_hash := some (pyStrip raw)
              comment := some fd.message
              metadata := some fd.userMeta },
            { event_type := rec.eventName
              doc_type := .OBJECT
              bucket := pyUnquote rec.bucketName
              key := pyUnquotePlus rec.objectKey
              ext := handlerExt (pyUnquotePlus rec.objectKey)
              etag := pyUnquote (rec.eTag.getD "")
              version_id := normVersionId rec.versionId
              last_modified := some head.lastModified
              size := some head.contentLength
              text := some txt }]
           contentExn := st.contentExn }, t1 ++ t2 ++ t3, none) := by
  intro w cap st rec head t1 ts raw t2 s fd txt t3 hC hR hhead hp hts hlo hhi hget hsel hs
    hjson hc
  have hman : index_if_manifest w cap st.docs rec.eventName (pyUnquote rec.bucketName)
      (pyUnquote (rec.eTag.getD "")) (handlerExt (pyUnquotePlus rec.objectKey))
      (pyUnquotePlus rec.objectKey) head.lastModified (normVersionId rec.versionId)
      head.contentLength
      = (.ok (true, st.docs ++
          [{ event_type := rec.eventName
             doc_type := .PACKAGE
             bucket := pyUnquote rec.bucketName
             key := MANIFEST_PREFIX_V1 ++ pyStrip raw
             ext := handlerExt (pyUnquotePlus rec.objectKey)
             etag := pyUnquote (rec.eTag.getD "")
             last_modified := some head.lastModified
             handle := some (strDrop (ospath_split (pyUnquotePlus rec.objectKey)).1
               POINTER_PREFIX_V1.length)
             package_hash := some (pyStrip raw)
             comment := some fd.message
             metadata := some fd.userMeta }]), t2) := by
    simp [index_if_manifest, hp, hts, hlo, hhi, hget, hsel, hs, hjson]
  have h := processRecord_created_ok hC hR hhead hman hc
  simpa using h

/-- C9 witness: a concrete pointer object produces exactly the PACKAGE
document followed by the OBJECT document. -/
theorem C9_witness :
    processRecord wOK 3 ⟨[], none⟩
        ⟨"ObjectCreated:Put", "b", ".quilt/named_packages/usr/pkg/1700000000", none, some "E"⟩
      = ({ docs :=
           [{ event_type := "ObjectCreated:Put"
              doc_type := .PACKAGE
              bucket := "b"
              key := ".quilt/packages/plain"
              ext := ""
              etag := "E"
              last_modified := some ⟨1000, true⟩
              handle := some "usr/pkg"
              package_hash := some "plain"
              comment := some "hi"
              metadata := some "{}" },
            { event_type := "ObjectCreated:Put"
              doc_type := .OBJECT
              bucket := "b"
              key := ".quilt/named_packages/usr/pkg/1700000000"
              ext := ""
              etag := "E"
              version_id := none
              last_modified := some ⟨1000, true⟩
              size := some 5
              text := some "" }]
           contentExn := none },
         [retry_s3_args .head "b" ".quilt/named_packages/usr/pkg/1700000000" none none "E" none,
          retry_s3_args .get "b" ".quilt/named_packages/usr/pkg/1700000000"
            (some 5) (some ELASTIC_LIMIT_BYTES) "E" none],
         none) := by
  have h := C9_package_then_object wOK 3 ⟨[], none⟩
    ⟨"ObjectCreated:Put", "b", ".quilt/named_packages/usr/pkg/1700000000", none, some "E"⟩
    obj0
    [retry_s3_args .head "b" ".quilt/named_packages/usr/pkg/1700000000" none none "E" none]
    1700000000 "plain"
    [retry_s3_args .get "b" ".quilt/named_packages/usr/pkg/1700000000"
      (some 5) (some ELASTIC_LIMIT_BYTES) "E" none]
    "{}" ⟨"hi", "{}"⟩ "" []
    (by decide) (by decide) (by rfl) (by decide) (by decide) (by decide) (by decide)
    (by rfl) (by rfl) (by decide) (by rfl) (by rfl)
  simpa using h

/-- C1: when content extraction raises, the handler substitutes empty
text, remembers the (most recent) error, and still appends a full OBJECT
document; the batch flushes its queue exactly once and re-raises the
remembered exception afterwards, with the produced documents not rolled
back; and the number of documents produced is invariant to whether
extraction succeeded. -/
theorem C1_content_error_isolation :
    (∀ w cap st rec head t1 fl docs1 t2 e t3,
        strStarts rec.eventName EVENT_PREFIX_Created = true →
        strStarts rec.eventName EVENT_PREFIX_Removed = false →
        resolveHead w cap (pyUnquote rec.bucketName) (pyUnquotePlus rec.objectKey)
          (pyUnquote (rec.eTag.getD "")) (normVersionId rec.versionId) = (.ok head, t1) →
        index_if_manifest w cap st.docs rec.eventName (pyUnquote rec.bucketName)
          (pyUnquote (rec.eTag.getD "")) (handlerExt (pyUnquotePlus rec.objectKey))
          (pyUnquotePlus rec.objectKey) head.lastModified (normVersionId rec.versionId)
          head.contentLength = (.ok (fl, docs1), t2) →
        maybe_get_contents w cap (pyUnquote rec.bucketName) (pyUnquotePlus rec.objectKey)
          (handlerExt (pyUnquotePlus rec.objectKey)) (pyUnquote (rec.eTag.getD ""))
          (normVersionId rec.versionId) head.contentLength = (.error e, t3) →
        processRecord w cap st rec =
          ({ docs := docs1 ++
             [{ event_type := rec.eventName
                doc_type := .OBJECT
                bucket := pyUnquote rec.bucketName
                key := pyUnquotePlus rec.objectKey
                ext := handlerExt (pyUnquotePlus rec.objectKey)
                etag := pyUnquote (rec.eTag.getD "")
                version_id := normVersionId rec.versionId
                last_modified := some head.lastModified
                size := some head.contentLength
                text := some "" }]
             contentExn := some e }, t1 ++ t2 ++ t3, none))
  ∧ (∀ w cap events st e,
        processEvents w cap ⟨[], none⟩ events = (st, none) →
        st.contentExn = some e →
        processBatch w cap events = (.error e, st.docs, 1))
  ∧ (∀ w w2 cap st rec head t1 fl fl2 docs1 t2 t4 e s t3 t5,
        strStarts rec.eventName EVENT_PREFIX_Created = true →
        strStarts rec.eventName EVENT_PREFIX_Removed = false →
        resolveHead w cap (pyUnquote rec.bucketName) (pyUnquotePlus rec.objectKey)
          (pyUnquote (rec.eTag.getD "")) (normVersionId rec.versionId) = (.ok head, t1) →
        resolveHead w2 cap (pyUnquote rec.bucketName) (pyUnquotePlus rec.objectKey)
          (pyUnquote (rec.eTag.getD "")) (normVersionId rec.versionId) = (.ok head, t1) →
        index_if_manifest w cap st.docs rec.eventName (pyUnquote rec.bucketName)
          (pyUnquote (rec.eTag.getD "")) (handlerExt (pyUnquotePlus rec.objectKey))
          (pyUnquotePlus rec.objectKey) head.lastModified (normVersionId rec.versionId)
          head.contentLength = (.ok (fl, docs1), t2) →
        index_if_manifest w2 cap st.docs rec.eventName (pyUnquote rec.bucketName)
          (pyUnquote (rec.eTag.getD "")) (handlerExt (pyUnquotePlus rec.objectKey))
          (pyUnquotePlus rec.objectKey) head.lastModified (normVersionId rec.versionId)
          head.contentLength = (.ok (fl2, docs1), t4) →
        maybe_get_contents w cap (pyUnquote rec.bucketName) (pyUnquotePlus rec.objectKey)
          (handlerExt (pyUnquotePlus rec.objectKey)) (pyUnquote (rec.eTag.getD ""))
          (normVersionId rec.versionId) head.contentLength = (.error e, t3) →
        maybe_get_contents w2 cap (pyUnquote rec.bucketName) (pyUnquotePlus rec.objectKey)
          (handlerExt (pyUnquotePlus rec.objectKey)) (pyUnquote (rec.eTag.getD ""))
          (normVersionId rec.versionId) head.contentLength = (.ok s, t5) →
        (processRecord w cap st rec).1.docs.length
          = (processRecord w2 cap st rec).1.docs.length) := by
  refine ⟨?_, ?_, ?_⟩
  · intro w cap st rec head t1 fl docs1 t2 e t3 hC hR hhead hman hc
    exact processRecord_created_contentFail hC hR hhead hman hc
  · intro w cap events st e hev hexn
    simp [processBatch, hev, hexn]
  · intro w w2 cap st rec head t1 fl fl2 docs1 t2 t4 e s t3 t5 hC hR hh hh2 hm hm2 hc hc2
    rw [processRecord_created_contentFail hC hR hh hm hc,
        processRecord_created_ok hC hR hh2 hm2 hc2]
    simp

/-- C1 witness: a batch with two failing extractions flushes once,
re-raises only the second error, and still indexes both documents. -/
theorem C1_witness :
    processRecord wTwoErr 3 ⟨[], none⟩ ⟨"ObjectCreated:Put", "b", "x.txt", none, some "E"⟩
      = ({ docs := [{ event_type := "ObjectCreated:Put"
                      doc_type := .OBJECT
                      bucket := "b"
                      key := "x.txt"
                      ext := ".txt"
                      etag := "E"
                      version_id := none
                      last_modified := some ⟨1000, true⟩
                      size := some 5
                      text := some "" }]
           contentExn := some (.generic "boom") },
         [retry_s3_args .head "b" "x.txt" none none "E" none,
          retry_s3_args .get "b" "x.txt" (some 5) (some ELASTIC_LIMIT_BYTES) "E" none],
         none)
  ∧ processBatch wTwoErr 3
      [⟨"ObjectCreated:Put", "b", "x.txt", none, some "E"⟩,
       ⟨"ObjectCreated:Put", "b", "y.parquet", none, some "E"⟩]
      = (.error (.generic "boom2"),
         [{ event_type := "ObjectCreated:Put"
            doc_type := .OBJECT
            bucket := "b"
            key := "x.txt"
            ext := ".txt"
            etag := "E"
            version_id := none
            last_modified := some ⟨1000, true⟩
            size := some 5
            text := some "" },
          { event_type := "ObjectCreated:Put"
            doc_type := .OBJECT
            bucket := "b"
            key := "y.parquet"
            ext := ".parquet"
            etag := "E"
            version_id := none
            last_modified := some ⟨1000, true⟩
            size := some 5
            text := some "" }], 1)
  ∧ (processRecord wTwoErr 3 ⟨[], none⟩ ⟨"ObjectCreated:Put", "b", "x.txt", none, some "E"⟩).1.docs.length
      = (processRecord wOK 3 ⟨[], none⟩ ⟨"ObjectCreated:Put", "b", "x.txt", none, some "E"⟩).1.docs.length := by
  refine ⟨?_, ?_, ?_⟩
  · have h := C1_content_error_isolation.1 wTwoErr 3 ⟨[], none⟩
      ⟨"ObjectCreated:Put", "b", "x.txt", none, some "E"⟩ obj0
      [retry_s3_args .head "b" "x.txt" none none "E" none]
      false [] [] (.generic "boom")
      [retry_s3_args .get "b" "x.txt" (some 5) (some ELASTIC_LIMIT_BYTES) "E" none]
      (by decide) (by decide) (by rfl) (by rfl) (by rfl)
    simpa using h
  · exact C1_content_error_isolation.2.1 wTwoErr 3
      [⟨"ObjectCreated:Put", "b", "x.txt", none, some "E"⟩,
       ⟨"ObjectCreated:Put", "b", "y.parquet", none, some "E"⟩]
      { docs := [{ event_type := "ObjectCreated:Put"
                   doc_type := .OBJECT
                   bucket := "b"
                   key := "x.txt"
                   ext := ".txt"
                   etag := "E"
                   version_id := none
                   last_modified := some ⟨1000, true⟩
                   size := some 5
                   text := some "" },
                 { event_type := "ObjectCreated:Put"
                   doc_type := .OBJECT
                   bucket := "b"
                   key := "y.parquet"
                   ext := ".parquet"
                   etag := "E"
                   version_id := none
                   last_modified := some ⟨1000, true⟩
                   size := some 5
                   text := some "" }]
        contentExn := some (.generic "boom2") }
      (.generic "boom2") (by rfl) (by rfl)
  · exact C1_content_error_isolation.2.2 wTwoErr wOK 3 ⟨[], none⟩
      ⟨"ObjectCreated:Put", "b", "x.txt", none, some "E"⟩ obj0
      [retry_s3_args .head "b" "x.txt" none none "E" none]
      false false [] []
      [] (.generic "boom") "plain"
      [retry_s3_args .get "b" "x.txt" (some 5) (some ELASTIC_LIMIT_BYTES) "E" none]
      [retry_s3_args .get "b" "x.txt" (some 5) (some ELASTIC_LIMIT_BYTES) "E" none]
      (by decide) (by decide) (by rfl) (by rfl) (by rfl) (by rfl) (by rfl) (by rfl)

end QuiltIndexer
